import Mathlib

/-!
Verification development for the PocketBase LemonSqueezy integration
(`src/main.pb.js`): a shallow embedding of the four route handlers
(`POST /lemonsqueezy`, `POST /create-checkout-session`,
`GET /create-portal-link`, `GET /manual-lemonsqueezy-synchronization`)
over an explicit record store, together with theorems about them.
-/

namespace LemonSqueezy

/-! ### HMAC-SHA256 (model of the host runtime's hs256 helper)

The webhook handler calls the host runtime's hs256 helper, which
returns the lowercase-hex encoding of the HMAC-SHA256 of a message
under a secret key.  We model it concretely: bytes are `Nat` values
below 256, 32-bit words are `Nat` values reduced modulo `2 ^ 32`. -/

def M32 : Nat := 2 ^ 32

def add32 (a b : Nat) : Nat := (a + b) % M32

def rotr (n x : Nat) : Nat := ((x >>> n) ||| (x <<< (32 - n))) % M32

def smallSigma0 (x : Nat) : Nat := rotr 7 x ^^^ rotr 18 x ^^^ (x >>> 3)

def smallSigma1 (x : Nat) : Nat := rotr 17 x ^^^ rotr 19 x ^^^ (x >>> 10)

def bigSigma0 (x : Nat) : Nat := rotr 2 x ^^^ rotr 13 x ^^^ rotr 22 x

def bigSigma1 (x : Nat) : Nat := rotr 6 x ^^^ rotr 11 x ^^^ rotr 25 x

def chFn (x y z : Nat) : Nat := (x &&& y) ^^^ ((x ^^^ 0xffffffff) &&& z)

def majFn (x y z : Nat) : Nat := (x &&& y) ^^^ (x &&& z) ^^^ (y &&& z)

/-- The eight 32-bit working variables of the SHA-256 state. -/
structure Hash8 where
  a : Nat
  b : Nat
  c : Nat
  d : Nat
  e : Nat
  f : Nat
  g : Nat
  h : Nat
  deriving Repr, DecidableEq

/-- The eight initial hash words of SHA-256, written in decimal. -/
def initH : Hash8 :=
  ⟨1779033703, 3144134277, 1013904242, 2773480762,
   1359893119, 2600822924, 528734635, 1541459225⟩

/-- The 64 round constants of SHA-256, written in decimal. -/
def roundK : List Nat :=
  [1116352408, 1899447441, 3049323471, 3921009573, 961987163,
   1508970993, 2453635748, 2870763221, 3624381080, 310598401,
   607225278, 1426881987, 1925078388, 2162078206, 2614888103,
   3248222580, 3835390401, 4022224774, 264347078, 604807628,
   770255983, 1249150122, 1555081692, 1996064986, 2554220882,
   2821834349, 2952996808, 3210313671, 3336571891, 3584528711,
   113926993, 338241895, 666307205, 773529912, 1294757372,
   1396182291, 1695183700, 1986661051, 2177026350, 2456956037,
   2730485921, 2820302411, 3259730800, 3345764771, 3516065817,
   3600352804, 4094571909, 275423344, 430227734, 506948616,
   659060556, 883997877, 958139571, 1322822218, 1537002063,
   1747873779, 1955562222, 2024104815, 2227730452, 2361852424,
   2428436474, 2756734187, 3204031479, 3329325298]

/-- Pack big-endian groups of four bytes into 32-bit words. -/
def bytesToWords : List Nat → List Nat
  | b0 :: b1 :: b2 :: b3 :: rest =>
      (b0 * 2 ^ 24 + b1 * 2 ^ 16 + b2 * 2 ^ 8 + b3) :: bytesToWords rest
  | _ => []

/-- Extend the 16 block words to the 64-entry message schedule.
The accumulator holds the schedule so far, newest word first. -/
def extendSchedule : Nat → List Nat → List Nat
  | 0, acc => acc.reverse
  | n + 1, acc =>
      let w := add32 (add32 (smallSigma1 (acc.getD 1 0)) (acc.getD 6 0))
                     (add32 (smallSigma0 (acc.getD 14 0)) (acc.getD 15 0))
      extendSchedule n (w :: acc)

/-- One SHA-256 compression round, given the pair of the round constant
and the schedule word. -/
def sha256Round (s : Hash8) (kw : Nat × Nat) : Hash8 :=
  let t1 := add32 s.h (add32 (bigSigma1 s.e)
                (add32 (chFn s.e s.f s.g) (add32 kw.1 kw.2)))
  let t2 := add32 (bigSigma0 s.a) (majFn s.a s.b s.c)
  ⟨add32 t1 t2, s.a, s.b, s.c, add32 s.d t1, s.e, s.f, s.g⟩

/-- Compress one 64-byte block into the running state. -/
def compress (s : Hash8) (block : List Nat) : Hash8 :=
  let ws := extendSchedule 48 (bytesToWords block).reverse
  let t := (roundK.zip ws).foldl sha256Round s
  ⟨add32 s.a t.a, add32 s.b t.b, add32 s.c t.c, add32 s.d t.d,
   add32 s.e t.e, add32 s.f t.f, add32 s.g t.g, add32 s.h t.h⟩

/-- Process `n` consecutive 64-byte blocks of the (padded) message. -/
def sha256BlocksN : Nat → Hash8 → List Nat → Hash8
  | 0, s, _ => s
  | n + 1, s, msg => sha256BlocksN n (compress s (msg.take 64)) (msg.drop 64)

/-- Big-endian serialisation of one 32-bit word to four bytes. -/
def wordToBytesBE (w : Nat) : List Nat :=
  [w / 2 ^ 24 % 256, w / 2 ^ 16 % 256, w / 2 ^ 8 % 256, w % 256]

/-- Big-endian serialisation of the 64-bit bit-length field. -/
def lenBytesBE (bits : Nat) : List Nat :=
  [bits / 2 ^ 56 % 256, bits / 2 ^ 48 % 256, bits / 2 ^ 40 % 256,
   bits / 2 ^ 32 % 256, bits / 2 ^ 24 % 256, bits / 2 ^ 16 % 256,
   bits / 2 ^ 8 % 256, bits % 256]

/-- SHA-256 padding: a `0x80` byte, zeros up to 56 mod 64, then the
message bit length as an 8-byte big-endian integer. -/
def padMessage (msg : List Nat) : List Nat :=
  let z := (119 - msg.length % 64) % 64
  msg ++ 0x80 :: List.replicate z 0 ++ lenBytesBE (8 * msg.length)

/-- The 32-byte digest serialised from a final state. -/
def digestBytes (s : Hash8) : List Nat :=
  wordToBytesBE s.a ++ wordToBytesBE s.b ++ wordToBytesBE s.c ++
  wordToBytesBE s.d ++ wordToBytesBE s.e ++ wordToBytesBE s.f ++
  wordToBytesBE s.g ++ wordToBytesBE s.h

/-- SHA-256 of a byte sequence. -/
def sha256 (msg : List Nat) : List Nat :=
  let padded := padMessage msg
  digestBytes (sha256BlocksN (padded.length / 64) initH padded)

/-- HMAC-SHA256 with key `key` over message `msg` (block size 64). -/
def hmacSha256 (key msg : List Nat) : List Nat :=
  let k0 := if key.length > 64 then sha256 key else key
  let k := k0 ++ List.replicate (64 - k0.length) 0
  let ipadKey := k.map (fun b => b ^^^ 0x36)
  let opadKey := k.map (fun b => b ^^^ 0x5c)
  sha256 (opadKey ++ sha256 (ipadKey ++ msg))

def hexDigitChar (n : Nat) : Char :=
  Char.ofNat (if n < 10 then 48 + n else 87 + n)

/-- Lowercase hex encoding of one byte (two characters). -/
def byteToHex (b : Nat) : List Char :=
  [hexDigitChar (b / 16), hexDigitChar (b % 16)]

def strToBytes (s : String) : List Nat :=
  s.toUTF8.toList.map (fun b => b.toNat)

/-- Model of the host runtime's hs256 helper: the lowercase-hex
encoding of the HMAC-SHA256 of `text` under key `secret`. -/
def hs256 (text secret : String) : String :=
  String.mk (((hmacSha256 (strToBytes secret) (strToBytes text)).map byteToHex).flatten)

/-! ### Record store

The four PocketBase collections used by `src/main.pb.js`: `customer`,
`subscription`, `variant`, `product`.  Each collection is a list of
records in insertion order; `findRecordsByFilter` is `List.filter`
and the saved update of `existing[0]` replaces the first match. -/

/-- Record of the `customer` collection: the fields loaded at
`src/main.pb.js:165-168`. -/
structure CustomerRecord where
  lemonsqueezy_customer_id : String
  user_id : String
  deriving Repr, DecidableEq

/-- Record of the `subscription` collection: the fields loaded at
`src/main.pb.js:69-84`. -/
structure SubscriptionRecord where
  subscription_id : String
  lemonsqueezy_customer_id : String
  status : String
  variant_id : String
  quantity : Nat
  metadata : String
  cancel_at_period_end : Bool
  current_period_start : String
  current_period_end : String
  ended_at : String
  cancel_at : String
  canceled_at : String
  trial_start : String
  trial_end : String
  deriving Repr, DecidableEq

/-- Record of the `variant` collection: the fields loaded at
`src/main.pb.js:505-517`. -/
structure VariantRecord where
  variant_id : String
  product_id : String
  active : Bool
  description : String
  currency : String
  unit_amount : Nat
  type : String
  interval : String
  interval_count : Nat
  trial_period_days : Nat
  metadata : String
  deriving Repr, DecidableEq

/-- Record of the `product` collection: the fields loaded at
`src/main.pb.js:555-562`. -/
structure ProductRecord where
  product_id : String
  active : Bool
  name : String
  description : String
  image : String
  metadata : String
  deriving Repr, DecidableEq

/-- The PocketBase record store restricted to the four collections the
hooks touch. -/
structure Store where
  customers : List CustomerRecord
  subscriptions : List SubscriptionRecord
  variants : List VariantRecord
  products : List ProductRecord
  deriving Repr, DecidableEq

/-! ### Incoming JSON payloads

Fields read with optional chaining plus a `||` default are `Option`
values; the defaults used in the source (`""`, `0`, `false`) coincide
with JS falsiness on those fields, so `Option.getD` is faithful. -/

/-- The `data.data` object of a subscription webhook event, and equally
one entry of the vendor's subscription list during sync: exactly the
fields `src/main.pb.js:69-84` and `452-467` read. -/
structure SubscriptionPayload where
  id : String
  customer_id : Option String
  status : Option String
  variant_id : Option String
  /-- Field read as `attributes?.first_subscription_item?.quantity`. -/
  quantity : Option Nat
  cancelled : Option Bool
  created_at : Option String
  renews_at : Option String
  ends_at : Option String
  trial_ends_at : Option String
  deriving Repr, DecidableEq

/-- A webhook request body: `meta.event_name` plus the `data` object. -/
structure WebhookEvent where
  event_name : String
  data : SubscriptionPayload
  deriving Repr, DecidableEq

/-- The `subscriptionData` object built at `src/main.pb.js:69-84` (and
verbatim again at `452-467` in the sync job).  `JSON.stringify({})` is
the two-character string of an opening and a closing brace. -/
def subscriptionDataOf (p : SubscriptionPayload) : SubscriptionRecord where
  subscription_id := p.id
  lemonsqueezy_customer_id := p.customer_id.getD ""
  status := p.status.getD ""
  variant_id := p.variant_id.getD ""
  quantity := p.quantity.getD 0
  metadata := "\x7b\x7d"
  cancel_at_period_end := p.cancelled.getD false
  current_period_start := p.created_at.getD ""
  current_period_end := p.renews_at.getD ""
  ended_at := p.ends_at.getD ""
  cancel_at := ""
  canceled_at := ""
  trial_start := ""
  trial_end := p.trial_ends_at.getD ""

/-- Replace the first element satisfying `q` by `x` (the in-place save
of the record `existing[0]` returned by `findRecordsByFilter`). -/
def replaceFirst (q : α → Bool) (x : α) : List α → List α
  | [] => []
  | a :: as => if q a then x :: as else a :: replaceFirst q x as

/-- The find-or-create upsert of `src/main.pb.js:64-95`: filter the
`subscription` collection by `subscription_id`; if a match exists load
the new data into the first match, else create a new record. -/
def upsertSubscription (subs : List SubscriptionRecord) (p : SubscriptionPayload) :
    List SubscriptionRecord :=
  let existing := subs.filter (fun r => r.subscription_id == p.id)
  if existing.length > 0 then
    replaceFirst (fun r => r.subscription_id == p.id) (subscriptionDataOf p) subs
  else
    subs ++ [subscriptionDataOf p]

/-! ### `POST /lemonsqueezy` webhook handler (`src/main.pb.js:42-105`) -/

/-- Outcome of the webhook handler: either the `BadRequestError` thrown
at `src/main.pb.js:53`, or the JSON response at line 104. -/
inductive WebhookOutcome where
  | badRequest (msg : String)
  | json (status : Nat)
  deriving Repr, DecidableEq

/-- Result of one webhook request: outcome, post-state of the record
store, and the number of collection reads (`findRecordsByFilter`) and
writes (`saveRecord`) the handler performed. -/
structure WebhookResult where
  outcome : WebhookOutcome
  store : Store
  dbReads : Nat
  dbWrites : Nat
  deriving Repr, DecidableEq

/-- The event names of the `switch` cases at `src/main.pb.js:59-61`. -/
def recognizedSubscriptionEvent (name : String) : Bool :=
  name == "subscription_created" || name == "subscription_cancelled" ||
    name == "subscription_updated"

/-- The `POST /lemonsqueezy` handler.  `xSignature` is the
`x_signature` header when present; a missing header defaults to the
empty string (line 46).  The handler hashes the raw body with the
configured secret, rejects on mismatch, then dispatches on
`meta.event_name`: recognized subscription events run the upsert (one
read, one write), anything else falls to `default` and returns 200. -/
def lemonsqueezyHandler (secret : String) (xSignature : Option String)
    (rawBody : String) (event : WebhookEvent) (store : Store) : WebhookResult :=
  let signature := xSignature.getD ""
  let hash := hs256 rawBody secret
  if hash == signature then
    if recognizedSubscriptionEvent event.event_name then
      { outcome := .json 200,
        store := { store with
                   subscriptions := upsertSubscription store.subscriptions event.data },
        dbReads := 1, dbWrites := 1 }
    else
      { outcome := .json 200, store := store, dbReads := 0, dbWrites := 0 }
  else
    { outcome := .badRequest "Invalid webhook signature.",
      store := store, dbReads := 0, dbWrites := 0 }

/-! ### `POST /create-checkout-session` handler (`src/main.pb.js:108-225`) -/

/-- The authenticated user record fields the handler reads. -/
structure UserRecord where
  id : String
  displayName : String
  email : String
  deriving Repr, DecidableEq

/-- Result of one outbound `$http.send` call: either a returned
response, or a thrown transport error. -/
inductive VendorResult (α : Type) where
  | ok (resp : α)
  | err (msg : String)
  deriving Repr, DecidableEq

/-- The JSON body of the vendor's customer-creation response, as far as
the handler reads it: `customerData.data.id` (`src/main.pb.js:160`).
`dataId = none` models a body whose `data` object is absent, on which
the field access throws. -/
structure CustomerCreateResp where
  dataId : Option String
  deriving Repr, DecidableEq

/-- Outcome of a proxy handler: an exception that propagates out of the
handler uncaught, or a JSON response with a status and a body. -/
inductive ProxyOutcome where
  | thrown (msg : String)
  | json (status : Nat) (body : String)
  deriving Repr, DecidableEq

/-- Result of one `POST /create-checkout-session` request: outcome,
post-state of the store, and how many vendor customer-creation and
checkout-creation calls were issued. -/
structure CheckoutResult where
  outcome : ProxyOutcome
  store : Store
  customerCreateCalls : Nat
  checkoutCalls : Nat
  deriving Repr, DecidableEq

/-- The checkout call in the `try` block at `src/main.pb.js:207-224`:
on a response, relay its status and JSON body verbatim; on a thrown
error, return the generic 400 response from the `catch`. -/
def checkoutCallStep (checkoutRes : VendorResult (Nat × String))
    (store : Store) (creates : Nat) : CheckoutResult :=
  match checkoutRes with
  | .ok (status, body) =>
      { outcome := .json status body, store := store,
        customerCreateCalls := creates, checkoutCalls := 1 }
  | .err _ =>
      { outcome := .json 400 "Failed to create checkout", store := store,
        customerCreateCalls := creates, checkoutCalls := 1 }

/-- The `POST /create-checkout-session` handler.  `auth` is the result
of `findAuthRecordByToken` (`none` models the throw caught at lines
113-117).  `customerRes` is the vendor's answer to the
customer-creation call, issued only on the no-existing-customer
branch; this call sits outside any `try`, so a thrown error
propagates.  `checkoutRes` is the vendor's answer to the checkout
call. -/
def createCheckoutSessionHandler (auth : Option UserRecord)
    (customerRes : VendorResult CustomerCreateResp)
    (checkoutRes : VendorResult (Nat × String))
    (store : Store) : CheckoutResult :=
  match auth with
  | none =>
      { outcome := .json 400 "User not authorized", store := store,
        customerCreateCalls := 0, checkoutCalls := 0 }
  | some user =>
      let existing := store.customers.filter (fun r => r.user_id == user.id)
      match existing with
      | _ :: _ =>
          -- existingCustomer.length > 0: reuse existing[0] and go to checkout
          checkoutCallStep checkoutRes store 0
      | [] =>
          match customerRes with
          | .err e =>
              -- uncaught: no try/catch wraps the customer-creation call
              { outcome := .thrown e, store := store,
                customerCreateCalls := 1, checkoutCalls := 0 }
          | .ok resp =>
              match resp.dataId with
              | none =>
                  -- customerData.data.id access throws, uncaught
                  { outcome := .thrown "TypeError: cannot read id", store := store,
                    customerCreateCalls := 1, checkoutCalls := 0 }
              | some cid =>
                  let store' := { store with
                    customers := store.customers ++
                      [{ lemonsqueezy_customer_id := cid, user_id := user.id }] }
                  checkoutCallStep checkoutRes store' 1

/-! ### `GET /create-portal-link` handler (`src/main.pb.js:227-261`) -/

/-- Result of one `GET /create-portal-link` request.  The handler never
writes, so only the outcome and the (unchanged) store are recorded. -/
structure PortalResult where
  outcome : ProxyOutcome
  store : Store
  deriving Repr, DecidableEq

/-- The `GET /create-portal-link` handler.  Everything sits in one
`try`: a failed auth lookup falls to the `catch` (generic 400); a
missing customer record returns 404; otherwise the vendor customer
fetch either yields the portal link (status relayed) or falls to the
`catch`. -/
def createPortalLinkHandler (auth : Option UserRecord)
    (portalRes : VendorResult (Nat × String))
    (store : Store) : PortalResult :=
  match auth with
  | none =>
      { outcome := .json 400 "Failed to retrieve customer portal link", store := store }
  | some user =>
      match store.customers.filter (fun r => r.user_id == user.id) with
      | [] => { outcome := .json 404 "Customer not found", store := store }
      | _ :: _ =>
          match portalRes with
          | .ok (status, link) => { outcome := .json status link, store := store }
          | .err _ =>
              { outcome := .json 400 "Failed to retrieve customer portal link",
                store := store }

/-! ### `GET /manual-lemonsqueezy-synchronization` (`src/main.pb.js:428-586`) -/

/-- One entry of the vendor's variant list: the fields
`src/main.pb.js:505-517` read (plain accesses, no defaults). -/
structure VariantPayload where
  id : String
  product_id : String
  status : String
  description : String
  price : Nat
  is_subscription : Bool
  interval : String
  interval_count : Nat
  has_free_trial : Bool
  trial_interval_count : Nat
  deriving Repr, DecidableEq

/-- One entry of the vendor's product list: the fields
`src/main.pb.js:555-562` read. -/
structure ProductPayload where
  id : String
  status : String
  name : String
  description : String
  thumb_url : String
  deriving Repr, DecidableEq

/-- The `variantData` object built at `src/main.pb.js:505-517`. -/
def variantDataOf (p : VariantPayload) : VariantRecord where
  variant_id := p.id
  product_id := p.product_id
  active := p.status == "published"
  description := p.description
  currency := "USD"
  unit_amount := p.price
  type := if p.is_subscription then "subscription" else "one-time"
  interval := p.interval
  interval_count := p.interval_count
  trial_period_days := if p.has_free_trial then p.trial_interval_count else 0
  metadata := "\x7b\x7d"

/-- The `productData` object built at `src/main.pb.js:555-562`. -/
def productDataOf (p : ProductPayload) : ProductRecord where
  product_id := p.id
  active := p.status == "published"
  name := p.name
  description := p.description
  image := p.thumb_url
  metadata := "\x7b\x7d"

/-- The find-or-create upsert of `src/main.pb.js:500-528`, keyed by
`variant_id`. -/
def upsertVariant (vars : List VariantRecord) (p : VariantPayload) :
    List VariantRecord :=
  let existing := vars.filter (fun r => r.variant_id == p.id)
  if existing.length > 0 then
    replaceFirst (fun r => r.variant_id == p.id) (variantDataOf p) vars
  else
    vars ++ [variantDataOf p]

/-- The find-or-create upsert of `src/main.pb.js:550-573`, keyed by
`product_id`. -/
def upsertProduct (prods : List ProductRecord) (p : ProductPayload) :
    List ProductRecord :=
  let existing := prods.filter (fun r => r.product_id == p.id)
  if existing.length > 0 then
    replaceFirst (fun r => r.product_id == p.id) (productDataOf p) prods
  else
    prods ++ [productDataOf p]

/-- The `forEach` loop over the vendor subscription list
(`src/main.pb.js:445-483`).  `saveOk` models whether `saveRecord`
accepts a record; a rejected save is caught per item and rethrown as a
`BadRequestError`, which aborts the whole loop.  Returns the updated
collection, the number of successful saves, and the thrown message if
the loop aborted. -/
def syncSubscriptionsLoop (saveOk : SubscriptionRecord → Bool) :
    List SubscriptionPayload → List SubscriptionRecord →
    List SubscriptionRecord × Nat × Option String
  | [], subs => (subs, 0, none)
  | p :: rest, subs =>
      if saveOk (subscriptionDataOf p) then
        let (subs', w, e) := syncSubscriptionsLoop saveOk rest (upsertSubscription subs p)
        (subs', w + 1, e)
      else
        (subs, 0, some "Failed to process subscription")

/-- The `forEach` loop over the vendor variant list
(`src/main.pb.js:498-533`), same shape as the subscription loop. -/
def syncVariantsLoop (saveOk : VariantRecord → Bool) :
    List VariantPayload → List VariantRecord →
    List VariantRecord × Nat × Option String
  | [], vars => (vars, 0, none)
  | p :: rest, vars =>
      if saveOk (variantDataOf p) then
        let (vars', w, e) := syncVariantsLoop saveOk rest (upsertVariant vars p)
        (vars', w + 1, e)
      else
        (vars, 0, some "Failed to process variant")

/-- The `forEach` loop over the vendor product list
(`src/main.pb.js:548-578`), same shape as the subscription loop. -/
def syncProductsLoop (saveOk : ProductRecord → Bool) :
    List ProductPayload → List ProductRecord →
    List ProductRecord × Nat × Option String
  | [], prods => (prods, 0, none)
  | p :: rest, prods =>
      if saveOk (productDataOf p) then
        let (prods', w, e) := syncProductsLoop saveOk rest (upsertProduct prods p)
        (prods', w + 1, e)
      else
        (prods, 0, some "Failed to process product")

/-- Result of one sync run: response status, post-state of the store,
and the number of successful record saves. -/
structure SyncResult where
  status : Nat
  store : Store
  writes : Nat
  deriving Repr, DecidableEq

/-- The `GET /manual-lemonsqueezy-synchronization` handler: fetch the
subscription, variant and product lists in sequence and run the three
upsert loops.  Any thrown error (a failed fetch or an aborted loop)
falls to the outer `catch` (`src/main.pb.js:582-585`), which returns a
400 response; records saved before the throw remain saved. -/
def manualSyncHandler (saveSubOk : SubscriptionRecord → Bool)
    (saveVarOk : VariantRecord → Bool) (saveProdOk : ProductRecord → Bool)
    (subsRes : VendorResult (List SubscriptionPayload))
    (variantsRes : VendorResult (List VariantPayload))
    (productsRes : VendorResult (List ProductPayload))
    (store : Store) : SyncResult :=
  match subsRes with
  | .err _ => { status := 400, store := store, writes := 0 }
  | .ok subsList =>
    let (subs1, w1, e1) := syncSubscriptionsLoop saveSubOk subsList store.subscriptions
    let store1 := { store with subscriptions := subs1 }
    match e1 with
    | some _ => { status := 400, store := store1, writes := w1 }
    | none =>
      match variantsRes with
      | .err _ => { status := 400, store := store1, writes := w1 }
      | .ok varList =>
        let (vars1, w2, e2) := syncVariantsLoop saveVarOk varList store1.variants
        let store2 := { store1 with variants := vars1 }
        match e2 with
        | some _ => { status := 400, store := store2, writes := w1 + w2 }
        | none =>
          match productsRes with
          | .err _ => { status := 400, store := store2, writes := w1 + w2 }
          | .ok prodList =>
            let (prods1, w3, e3) := syncProductsLoop saveProdOk prodList store2.products
            let store3 := { store2 with products := prods1 }
            match e3 with
            | some _ => { status := 400, store := store3, writes := w1 + w2 + w3 }
            | none => { status := 200, store := store3, writes := w1 + w2 + w3 }

/-! ### Helper lemmas -/

theorem digestBytes_length (s : Hash8) : (digestBytes s).length = 32 := by
  simp [digestBytes, wordToBytesBE]

theorem sha256_length (msg : List Nat) : (sha256 msg).length = 32 := by
  simp [sha256, digestBytes_length]

theorem hmacSha256_length (key msg : List Nat) : (hmacSha256 key msg).length = 32 := by
  simp [hmacSha256, sha256_length]

theorem hexChars_length (l : List Nat) :
    ((l.map byteToHex).flatten).length = 2 * l.length := by
  induction l with
  | nil => simp
  | cons b rest ih => simp [byteToHex, ih]; omega

theorem string_mk_length (l : List Char) : (String.mk l).length = l.length := rfl

theorem hs256_length (text secret : String) : (hs256 text secret).length = 64 := by
  unfold hs256
  rw [string_mk_length, hexChars_length, hmacSha256_length]

theorem hs256_ne_empty (text secret : String) : hs256 text secret ≠ "" := by
  intro h
  have h2 := congrArg String.length h
  rw [hs256_length] at h2
  simp [String.length] at h2

/-! ### Claims about the webhook handler's signature check -/

/-- C1: a webhook request whose raw body's HMAC-SHA256 under the
configured secret differs from the `x_signature` header value is
rejected with the `BadRequestError`, with no subscription lookup, no
write, and an unchanged store. -/
theorem webhook_bad_signature_rejected (secret : String) (xSignature : Option String)
    (rawBody : String) (event : WebhookEvent) (store : Store)
    (h : hs256 rawBody secret ≠ xSignature.getD "") :
    lemonsqueezyHandler secret xSignature rawBody event store =
      { outcome := .badRequest "Invalid webhook signature.", store := store,
        dbReads := 0, dbWrites := 0 } := by
  simp [lemonsqueezyHandler, h]

theorem webhook_bad_signature_rejected_witness :
    hs256 "body" "hello_world" ≠ (some "").getD "" ∧
    lemonsqueezyHandler "hello_world" (some "") "body"
        ⟨"subscription_created", ⟨"1", none, none, none, none, none, none, none, none, none⟩⟩
        ⟨[], [], [], []⟩ =
      { outcome := .badRequest "Invalid webhook signature.",
        store := ⟨[], [], [], []⟩, dbReads := 0, dbWrites := 0 } :=
  ⟨hs256_ne_empty "body" "hello_world",
   webhook_bad_signature_rejected "hello_world" (some "") "body"
     ⟨"subscription_created", ⟨"1", none, none, none, none, none, none, none, none, none⟩⟩
     ⟨[], [], [], []⟩ (hs256_ne_empty "body" "hello_world")⟩

/-- C10: a webhook request with no `x_signature` header defaults the
signature to the empty string; since the hex-encoded HMAC digest is
never the empty string, every such request is rejected. -/
theorem webhook_missing_signature_rejected (secret rawBody : String)
    (event : WebhookEvent) (store : Store) :
    lemonsqueezyHandler secret none rawBody event store =
      { outcome := .badRequest "Invalid webhook signature.", store := store,
        dbReads := 0, dbWrites := 0 } := by
  simp [lemonsqueezyHandler, hs256_ne_empty rawBody secret]

/-- C5: a validly signed webhook request whose event name is not one
of the recognized subscription event names performs no database read
or write, leaves the store unchanged, and returns 200. -/
theorem webhook_unrecognized_event_noop (secret : String) (xSignature : Option String)
    (rawBody : String) (event : WebhookEvent) (store : Store)
    (hsig : hs256 rawBody secret = xSignature.getD "")
    (hev : recognizedSubscriptionEvent event.event_name = false) :
    lemonsqueezyHandler secret xSignature rawBody event store =
      { outcome := .json 200, store := store, dbReads := 0, dbWrites := 0 } := by
  simp [lemonsqueezyHandler, hsig, hev]

theorem webhook_unrecognized_event_noop_witness :
    hs256 "payload" "secret" = (some (hs256 "payload" "secret")).getD "" ∧
    recognizedSubscriptionEvent "order_created" = false ∧
    lemonsqueezyHandler "secret" (some (hs256 "payload" "secret")) "payload"
        ⟨"order_created", ⟨"1", none, none, none, none, none, none, none, none, none⟩⟩
        ⟨[], [], [], []⟩ =
      { outcome := .json 200, store := ⟨[], [], [], []⟩,
        dbReads := 0, dbWrites := 0 } :=
  ⟨rfl, by decide,
   webhook_unrecognized_event_noop "secret" (some (hs256 "payload" "secret")) "payload"
     ⟨"order_created", ⟨"1", none, none, none, none, none, none, none, none, none⟩⟩
     ⟨[], [], [], []⟩ rfl (by decide)⟩

/-! ### Upsert lemmas -/

theorem replaceFirst_length (q : α → Bool) (x : α) (l : List α) :
    (replaceFirst q x l).length = l.length := by
  induction l with
  | nil => rfl
  | cons a as ih =>
      by_cases h : q a
      · simp [replaceFirst, h]
      · simp [replaceFirst, h, ih]

theorem filter_replaceFirst_length (q : α → Bool) (x : α) (hx : q x = true)
    (l : List α) :
    ((replaceFirst q x l).filter q).length = (l.filter q).length := by
  induction l with
  | nil => rfl
  | cons a as ih =>
      by_cases h : q a
      · simp [replaceFirst, h, hx]
      · simp [replaceFirst, h, ih]

theorem filter_replaceFirst_headD (q : α → Bool) (x : α) (hx : q x = true)
    (l : List α) (hne : l.filter q ≠ []) :
    ((replaceFirst q x l).filter q).head? = some x := by
  induction l with
  | nil => simp at hne
  | cons a as ih =>
      by_cases h : q a
      · simp [replaceFirst, h, hx]
      · simp only [List.filter_cons, h] at hne
        simp [replaceFirst, h, ih hne]

theorem subscriptionDataOf_matches (p : SubscriptionPayload) :
    ((subscriptionDataOf p).subscription_id == p.id) = true := by
  simp [subscriptionDataOf]

theorem upsertSubscription_count_one (subs : List SubscriptionRecord)
    (p : SubscriptionPayload)
    (h : (subs.filter (fun r => r.subscription_id == p.id)).length ≤ 1) :
    ((upsertSubscription subs p).filter
        (fun r => r.subscription_id == p.id)).length = 1 := by
  unfold upsertSubscription
  by_cases h0 : (subs.filter (fun r => r.subscription_id == p.id)).length > 0
  · simp only [h0, if_pos]
    rw [filter_replaceFirst_length (fun r => r.subscription_id == p.id)
          (subscriptionDataOf p) (subscriptionDataOf_matches p)]
    omega
  · simp only [h0, if_neg, not_false_iff]
    rw [List.filter_append]
    have hz : (subs.filter (fun r => r.subscription_id == p.id)).length = 0 := by omega
    rw [List.length_eq_zero] at hz
    simp [hz, subscriptionDataOf_matches p]

theorem upsertSubscription_length_of_existing (subs : List SubscriptionRecord)
    (p : SubscriptionPayload)
    (h : (subs.filter (fun r => r.subscription_id == p.id)).length > 0) :
    (upsertSubscription subs p).length = subs.length := by
  simp [upsertSubscription, h, replaceFirst_length]

/-- The recognized-event, valid-signature path of the webhook handler
reduces to the subscription upsert. -/
theorem lemonsqueezyHandler_valid_recognized (secret : String)
    (xSignature : Option String) (rawBody : String) (event : WebhookEvent)
    (store : Store) (hsig : hs256 rawBody secret = xSignature.getD "")
    (hev : recognizedSubscriptionEvent event.event_name = true) :
    lemonsqueezyHandler secret xSignature rawBody event store =
      { outcome := .json 200,
        store := { store with
                   subscriptions := upsertSubscription store.subscriptions event.data },
        dbReads := 1, dbWrites := 1 } := by
  simp [lemonsqueezyHandler, hsig, hev]

/-- C2: starting from a store with at most one subscription record per
subscription id, delivering the same validly signed
`subscription_created` event twice in sequence leaves exactly one
record for that subscription id, and the second delivery updates
rather than creates (the collection size does not grow). -/
theorem webhook_replay_single_record (secret : String) (xSignature : Option String)
    (rawBody : String) (event : WebhookEvent) (store : Store)
    (hsig : hs256 rawBody secret = xSignature.getD "")
    (hev : event.event_name = "subscription_created")
    (huniq : ∀ sid, (store.subscriptions.filter
        (fun r => r.subscription_id == sid)).length ≤ 1) :
    (((lemonsqueezyHandler secret xSignature rawBody event
          (lemonsqueezyHandler secret xSignature rawBody event store).store).store.subscriptions.filter
        (fun r => r.subscription_id == event.data.id)).length = 1) ∧
    (lemonsqueezyHandler secret xSignature rawBody event
        (lemonsqueezyHandler secret xSignature rawBody event store).store).store.subscriptions.length =
      (lemonsqueezyHandler secret xSignature rawBody event store).store.subscriptions.length := by
  have hrec : recognizedSubscriptionEvent event.event_name = true := by
    simp [recognizedSubscriptionEvent, hev]
  rw [lemonsqueezyHandler_valid_recognized secret xSignature rawBody event store hsig hrec]
  rw [lemonsqueezyHandler_valid_recognized secret xSignature rawBody event _ hsig hrec]
  have hc1 : ((upsertSubscription store.subscriptions event.data).filter
      (fun r => r.subscription_id == event.data.id)).length = 1 :=
    upsertSubscription_count_one store.subscriptions event.data (huniq event.data.id)
  refine ⟨?_, ?_⟩
  · exact upsertSubscription_count_one _ event.data (by rw [hc1])
  · exact upsertSubscription_length_of_existing _ event.data (by rw [hc1]; omega)

theorem webhook_replay_single_record_witness :
    hs256 "payload" "secret" = (some (hs256 "payload" "secret")).getD "" ∧
    (⟨"subscription_created", ⟨"sub1", some "c1", some "active", some "v1",
        some 1, some false, some "2024-01-01", some "2024-02-01", none, none⟩⟩ :
        WebhookEvent).event_name = "subscription_created" ∧
    (∀ sid, ((⟨[], [], [], []⟩ : Store).subscriptions.filter
        (fun r => r.subscription_id == sid)).length ≤ 1) ∧
    ((((lemonsqueezyHandler "secret" (some (hs256 "payload" "secret")) "payload"
          ⟨"subscription_created", ⟨"sub1", some "c1", some "active", some "v1",
            some 1, some false, some "2024-01-01", some "2024-02-01", none, none⟩⟩
          (lemonsqueezyHandler "secret" (some (hs256 "payload" "secret")) "payload"
            ⟨"subscription_created", ⟨"sub1", some "c1", some "active", some "v1",
              some 1, some false, some "2024-01-01", some "2024-02-01", none, none⟩⟩
            ⟨[], [], [], []⟩).store).store.subscriptions.filter
        (fun r => r.subscription_id == "sub1")).length = 1) ∧
      (lemonsqueezyHandler "secret" (some (hs256 "payload" "secret")) "payload"
          ⟨"subscription_created", ⟨"sub1", some "c1", some "active", some "v1",
            some 1, some false, some "2024-01-01", some "2024-02-01", none, none⟩⟩
          (lemonsqueezyHandler "secret" (some (hs256 "payload" "secret")) "payload"
            ⟨"subscription_created", ⟨"sub1", some "c1", some "active", some "v1",
              some 1, some false, some "2024-01-01", some "2024-02-01", none, none⟩⟩
            ⟨[], [], [], []⟩).store).store.subscriptions.length =
        (lemonsqueezyHandler "secret" (some (hs256 "payload" "secret")) "payload"
          ⟨"subscription_created", ⟨"sub1", some "c1", some "active", some "v1",
            some 1, some false, some "2024-01-01", some "2024-02-01", none, none⟩⟩
          ⟨[], [], [], []⟩).store.subscriptions.length) :=
  ⟨rfl, rfl, by intro sid; simp,
   webhook_replay_single_record "secret" (some (hs256 "payload" "secret")) "payload"
     ⟨"subscription_created", ⟨"sub1", some "c1", some "active", some "v1",
       some 1, some false, some "2024-01-01", some "2024-02-01", none, none⟩⟩
     ⟨[], [], [], []⟩ rfl rfl (by intro sid; simp)⟩

/-- C9: every subscription upsert — the webhook path
(`src/main.pb.js:64-95`) and the sync path (`445-483`) build the same
`subscriptionData` object via `subscriptionDataOf` — writes exactly
`subscriptionDataOf p` as the record for the incoming id, and that
record's `metadata` is the stringified empty object and its
`cancel_at`, `canceled_at` and `trial_start` are the empty string,
regardless of the payload and of whatever the collection held
before. -/
theorem upsert_overwrites_constant_fields (subs : List SubscriptionRecord)
    (p : SubscriptionPayload) :
    ((upsertSubscription subs p).filter
        (fun r => r.subscription_id == p.id)).head? = some (subscriptionDataOf p) ∧
    (subscriptionDataOf p).metadata = "\x7b\x7d" ∧
    (subscriptionDataOf p).cancel_at = "" ∧
    (subscriptionDataOf p).canceled_at = "" ∧
    (subscriptionDataOf p).trial_start = "" := by
  refine ⟨?_, rfl, rfl, rfl, rfl⟩
  unfold upsertSubscription
  by_cases h0 : (subs.filter (fun r => r.subscription_id == p.id)).length > 0
  · simp only [h0, if_pos]
    refine filter_replaceFirst_headD (fun r => r.subscription_id == p.id)
      (subscriptionDataOf p) (subscriptionDataOf_matches p) subs ?_
    intro hnil
    rw [hnil] at h0
    simp at h0
  · simp only [h0, if_neg, not_false_iff]
    have hz : (subs.filter (fun r => r.subscription_id == p.id)).length = 0 := by
      omega
    rw [List.length_eq_zero] at hz
    rw [List.filter_append, hz]
    simp [subscriptionDataOf_matches p]

/-! ### Claims about the checkout-session handler -/

/-- Sample authenticated user for concrete instantiations. -/
def sampleUser : UserRecord :=
  { id := "u1", displayName := "User One", email := "userone@example.com" }

/-- C3: an authenticated user with no customer record gets exactly one
new customer record (their user id paired with the vendor-assigned
customer id) and exactly one vendor customer-creation call; a user
with an existing customer record gets no new record and no
customer-creation call. -/
theorem checkout_customer_find_or_create (user : UserRecord) (store : Store)
    (cid : String) (st : Nat) (body : String) :
    ((store.customers.filter (fun r => r.user_id == user.id)).length = 0 →
      createCheckoutSessionHandler (some user) (.ok ⟨some cid⟩) (.ok (st, body)) store =
        { outcome := .json st body,
          store := { store with customers := store.customers ++
            [{ lemonsqueezy_customer_id := cid, user_id := user.id }] },
          customerCreateCalls := 1, checkoutCalls := 1 }) ∧
    (∀ (customerRes : VendorResult CustomerCreateResp)
       (checkoutRes : VendorResult (Nat × String)),
      (store.customers.filter (fun r => r.user_id == user.id)).length > 0 →
        (createCheckoutSessionHandler (some user) customerRes checkoutRes store).store
            = store ∧
        (createCheckoutSessionHandler (some user) customerRes
            checkoutRes store).customerCreateCalls = 0) := by
  constructor
  · intro h0
    rw [List.length_eq_zero] at h0
    simp [createCheckoutSessionHandler, h0, checkoutCallStep]
  · intro customerRes checkoutRes hpos
    rcases hcase : store.customers.filter (fun r => r.user_id == user.id) with _ | ⟨c, rest⟩
    · rw [hcase] at hpos
      simp at hpos
    · cases checkoutRes <;>
        simp [createCheckoutSessionHandler, hcase, checkoutCallStep]

theorem checkout_customer_find_or_create_witness :
    (((⟨[], [], [], []⟩ : Store).customers.filter
        (fun r => r.user_id == sampleUser.id)).length = 0) ∧
    createCheckoutSessionHandler (some sampleUser) (.ok ⟨some "ls9"⟩)
        (.ok (201, "resp")) ⟨[], [], [], []⟩ =
      { outcome := .json 201 "resp",
        store := ⟨[{ lemonsqueezy_customer_id := "ls9", user_id := sampleUser.id }],
                  [], [], []⟩,
        customerCreateCalls := 1, checkoutCalls := 1 } ∧
    (((⟨[⟨"ls9", "u1"⟩], [], [], []⟩ : Store).customers.filter
        (fun r => r.user_id == sampleUser.id)).length > 0) ∧
    (createCheckoutSessionHandler (some sampleUser) (.err "boom") (.err "boom2")
        ⟨[⟨"ls9", "u1"⟩], [], [], []⟩).store = ⟨[⟨"ls9", "u1"⟩], [], [], []⟩ ∧
    (createCheckoutSessionHandler (some sampleUser) (.err "boom") (.err "boom2")
        ⟨[⟨"ls9", "u1"⟩], [], [], []⟩).customerCreateCalls = 0 :=
  ⟨by decide,
   (checkout_customer_find_or_create sampleUser ⟨[], [], [], []⟩ "ls9" 201 "resp").1
     (by decide),
   by decide,
   ((checkout_customer_find_or_create sampleUser ⟨[⟨"ls9", "u1"⟩], [], [], []⟩
       "ls9" 201 "resp").2 (.err "boom") (.err "boom2") (by decide)).1,
   ((checkout_customer_find_or_create sampleUser ⟨[⟨"ls9", "u1"⟩], [], [], []⟩
       "ls9" 201 "resp").2 (.err "boom") (.err "boom2") (by decide)).2⟩

/-- C4 counterexample: a transport error thrown by the vendor
customer-creation call (for a user with no existing customer mapping)
propagates out of the handler — the outcome is a thrown error, not the
generic 400 response the claim promises for every vendor error. -/
theorem checkout_vendor_error_counterexample :
    (createCheckoutSessionHandler (some sampleUser) (.err "network error")
        (.ok (200, "resp")) ⟨[], [], [], []⟩).outcome = .thrown "network error" ∧
    ¬ (createCheckoutSessionHandler (some sampleUser) (.err "network error")
        (.ok (200, "resp")) ⟨[], [], [], []⟩).outcome =
        .json 400 "Failed to create checkout" := by
  decide

/-- C4 amended: an error thrown during the checkout-creation call
(the only vendor call inside a `try`) yields the generic 400 response,
but an error from the customer-creation call, which no `try` wraps,
propagates as a thrown error instead of a generic failure response. -/
theorem checkout_error_handling (user : UserRecord) (store : Store) (e : String)
    (customerRes : VendorResult CustomerCreateResp)
    (checkoutRes : VendorResult (Nat × String)) :
    ((createCheckoutSessionHandler (some user) customerRes (.err e) store).checkoutCalls
        = 1 →
      (createCheckoutSessionHandler (some user) customerRes (.err e) store).outcome =
        .json 400 "Failed to create checkout") ∧
    ((store.customers.filter (fun r => r.user_id == user.id)).length = 0 →
      (createCheckoutSessionHandler (some user) (.err e) checkoutRes store).outcome =
        .thrown e) := by
  constructor
  · intro hreach
    rcases hcase : store.customers.filter (fun r => r.user_id == user.id) with _ | ⟨c, rest⟩
    · cases customerRes with
      | err m => simp [createCheckoutSessionHandler, hcase] at hreach
      | ok resp =>
          cases hd : resp.dataId with
          | none => simp [createCheckoutSessionHandler, hcase, hd] at hreach
          | some cid => simp [createCheckoutSessionHandler, hcase, hd, checkoutCallStep]
    · simp [createCheckoutSessionHandler, hcase, checkoutCallStep]
  · intro h0
    rw [List.length_eq_zero] at h0
    simp [createCheckoutSessionHandler, h0]

theorem checkout_error_handling_witness :
    ((createCheckoutSessionHandler (some sampleUser) (.ok ⟨some "ls9"⟩) (.err "boom")
        ⟨[⟨"ls9", "u1"⟩], [], [], []⟩).checkoutCalls = 1) ∧
    (createCheckoutSessionHandler (some sampleUser) (.ok ⟨some "ls9"⟩) (.err "boom")
        ⟨[⟨"ls9", "u1"⟩], [], [], []⟩).outcome = .json 400 "Failed to create checkout" ∧
    (((⟨[], [], [], []⟩ : Store).customers.filter
        (fun r => r.user_id == sampleUser.id)).length = 0) ∧
    (createCheckoutSessionHandler (some sampleUser) (.err "boom") (.ok (200, "resp"))
        ⟨[], [], [], []⟩).outcome = .thrown "boom" :=
  ⟨by decide,
   (checkout_error_handling sampleUser ⟨[⟨"ls9", "u1"⟩], [], [], []⟩ "boom"
       (.ok ⟨some "ls9"⟩) (.ok (200, "resp"))).1 (by decide),
   by decide,
   (checkout_error_handling sampleUser ⟨[], [], [], []⟩ "boom"
       (.ok ⟨some "ls9"⟩) (.ok (200, "resp"))).2 (by decide)⟩

/-! ### Claims about the sync job -/

/-- If every item before `bad` saves fine and `bad`'s save is
rejected, the subscription loop stops at `bad`: the collection
reflects only the items before it, the save count equals their number,
and the `BadRequestError` message is thrown. -/
theorem syncSubscriptionsLoop_abort (saveOk : SubscriptionRecord → Bool)
    (pre post : List SubscriptionPayload) (bad : SubscriptionPayload)
    (subs : List SubscriptionRecord)
    (hpre : ∀ p ∈ pre, saveOk (subscriptionDataOf p) = true)
    (hbad : saveOk (subscriptionDataOf bad) = false) :
    syncSubscriptionsLoop saveOk (pre ++ bad :: post) subs =
      (pre.foldl upsertSubscription subs, pre.length,
       some "Failed to process subscription") := by
  induction pre generalizing subs with
  | nil => simp [syncSubscriptionsLoop, hbad]
  | cons p rest ih =>
      have hp : saveOk (subscriptionDataOf p) = true := hpre p (by simp)
      have hrest : ∀ q ∈ rest, saveOk (subscriptionDataOf q) = true := by
        intro q hq
        exact hpre q (by simp [hq])
      simp [syncSubscriptionsLoop, hp, ih (upsertSubscription subs p) hrest]

/-- If every item of the list saves fine, the subscription loop runs
to completion: the collection reflects every item, all are counted as
writes, and nothing is thrown. -/
theorem syncSubscriptionsLoop_all_ok (saveOk : SubscriptionRecord → Bool)
    (items : List SubscriptionPayload) (subs : List SubscriptionRecord)
    (h : ∀ p ∈ items, saveOk (subscriptionDataOf p) = true) :
    syncSubscriptionsLoop saveOk items subs =
      (items.foldl upsertSubscription subs, items.length, none) := by
  induction items generalizing subs with
  | nil => simp [syncSubscriptionsLoop]
  | cons p rest ih =>
      have hp : saveOk (subscriptionDataOf p) = true := h p (by simp)
      have hrest : ∀ q ∈ rest, saveOk (subscriptionDataOf q) = true := by
        intro q hq
        exact h q (by simp [hq])
      simp [syncSubscriptionsLoop, hp, ih (upsertSubscription subs p) hrest]

/-- Abort behaviour of the variant loop, same shape as
`syncSubscriptionsLoop_abort`. -/
theorem syncVariantsLoop_abort (saveOk : VariantRecord → Bool)
    (pre post : List VariantPayload) (bad : VariantPayload)
    (vars : List VariantRecord)
    (hpre : ∀ p ∈ pre, saveOk (variantDataOf p) = true)
    (hbad : saveOk (variantDataOf bad) = false) :
    syncVariantsLoop saveOk (pre ++ bad :: post) vars =
      (pre.foldl upsertVariant vars, pre.length, some "Failed to process variant") := by
  induction pre generalizing vars with
  | nil => simp [syncVariantsLoop, hbad]
  | cons p rest ih =>
      have hp : saveOk (variantDataOf p) = true := hpre p (by simp)
      have hrest : ∀ q ∈ rest, saveOk (variantDataOf q) = true := by
        intro q hq
        exact hpre q (by simp [hq])
      simp [syncVariantsLoop, hp, ih (upsertVariant vars p) hrest]

/-- Completion behaviour of the variant loop. -/
theorem syncVariantsLoop_all_ok (saveOk : VariantRecord → Bool)
    (items : List VariantPayload) (vars : List VariantRecord)
    (h : ∀ p ∈ items, saveOk (variantDataOf p) = true) :
    syncVariantsLoop saveOk items vars =
      (items.foldl upsertVariant vars, items.length, none) := by
  induction items generalizing vars with
  | nil => simp [syncVariantsLoop]
  | cons p rest ih =>
      have hp : saveOk (variantDataOf p) = true := h p (by simp)
      have hrest : ∀ q ∈ rest, saveOk (variantDataOf q) = true := by
        intro q hq
        exact h q (by simp [hq])
      simp [syncVariantsLoop, hp, ih (upsertVariant vars p) hrest]

/-- Abort behaviour of the product loop, same shape as
`syncSubscriptionsLoop_abort`. -/
theorem syncProductsLoop_abort (saveOk : ProductRecord → Bool)
    (pre post : List ProductPayload) (bad : ProductPayload)
    (prods : List ProductRecord)
    (hpre : ∀ p ∈ pre, saveOk (productDataOf p) = true)
    (hbad : saveOk (productDataOf bad) = false) :
    syncProductsLoop saveOk (pre ++ bad :: post) prods =
      (pre.foldl upsertProduct prods, pre.length, some "Failed to process product") := by
  induction pre generalizing prods with
  | nil => simp [syncProductsLoop, hbad]
  | cons p rest ih =>
      have hp : saveOk (productDataOf p) = true := hpre p (by simp)
      have hrest : ∀ q ∈ rest, saveOk (productDataOf q) = true := by
        intro q hq
        exact hpre q (by simp [hq])
      simp [syncProductsLoop, hp, ih (upsertProduct prods p) hrest]

/-- C6: during the sync job, one item's failed upsert in any of the
three vendor lists aborts the rest of that list's loop — the store
reflects only the items processed before the failing one and none
after it — and the handler answers 400 instead of success. -/
theorem sync_item_failure_aborts (saveSubOk : SubscriptionRecord → Bool)
    (saveVarOk : VariantRecord → Bool) (saveProdOk : ProductRecord → Bool)
    (store : Store) :
    (∀ (pre post : List SubscriptionPayload) (bad : SubscriptionPayload)
       (variantsRes : VendorResult (List VariantPayload))
       (productsRes : VendorResult (List ProductPayload)),
      (∀ p ∈ pre, saveSubOk (subscriptionDataOf p) = true) →
      saveSubOk (subscriptionDataOf bad) = false →
      manualSyncHandler saveSubOk saveVarOk saveProdOk (.ok (pre ++ bad :: post))
          variantsRes productsRes store =
        { status := 400,
          store := { store with
                     subscriptions := pre.foldl upsertSubscription store.subscriptions },
          writes := pre.length }) ∧
    (∀ (subsList : List SubscriptionPayload) (pre post : List VariantPayload)
       (bad : VariantPayload) (productsRes : VendorResult (List ProductPayload)),
      (∀ p ∈ subsList, saveSubOk (subscriptionDataOf p) = true) →
      (∀ p ∈ pre, saveVarOk (variantDataOf p) = true) →
      saveVarOk (variantDataOf bad) = false →
      manualSyncHandler saveSubOk saveVarOk saveProdOk (.ok subsList)
          (.ok (pre ++ bad :: post)) productsRes store =
        { status := 400,
          store := { store with
                     subscriptions := subsList.foldl upsertSubscription store.subscriptions,
                     variants := pre.foldl upsertVariant store.variants },
          writes := subsList.length + pre.length }) ∧
    (∀ (subsList : List SubscriptionPayload) (varList : List VariantPayload)
       (pre post : List ProductPayload) (bad : ProductPayload),
      (∀ p ∈ subsList, saveSubOk (subscriptionDataOf p) = true) →
      (∀ p ∈ varList, saveVarOk (variantDataOf p) = true) →
      (∀ p ∈ pre, saveProdOk (productDataOf p) = true) →
      saveProdOk (productDataOf bad) = false →
      manualSyncHandler saveSubOk saveVarOk saveProdOk (.ok subsList) (.ok varList)
          (.ok (pre ++ bad :: post)) store =
        { status := 400,
          store := { store with
                     subscriptions := subsList.foldl upsertSubscription store.subscriptions,
                     variants := varList.foldl upsertVariant store.variants,
                     products := pre.foldl upsertProduct store.products },
          writes := subsList.length + varList.length + pre.length }) := by
  refine ⟨?_, ?_, ?_⟩
  · intro pre post bad variantsRes productsRes hpre hbad
    simp [manualSyncHandler,
          syncSubscriptionsLoop_abort saveSubOk pre post bad store.subscriptions hpre hbad]
  · intro subsList pre post bad productsRes hsubs hpre hbad
    simp [manualSyncHandler,
          syncSubscriptionsLoop_all_ok saveSubOk subsList store.subscriptions hsubs,
          syncVariantsLoop_abort saveVarOk pre post bad store.variants hpre hbad]
  · intro subsList varList pre post bad hsubs hvars hpre hbad
    simp [manualSyncHandler,
          syncSubscriptionsLoop_all_ok saveSubOk subsList store.subscriptions hsubs,
          syncVariantsLoop_all_ok saveVarOk varList store.variants hvars,
          syncProductsLoop_abort saveProdOk pre post bad store.products hpre hbad]

/-- Concrete subscription payload with id `i` and no attributes. -/
def subP (i : String) : SubscriptionPayload :=
  ⟨i, none, none, none, none, none, none, none, none, none⟩

/-- Concrete variant payload with id `i`. -/
def varP (i : String) : VariantPayload :=
  ⟨i, "p1", "published", "desc", 100, true, "month", 1, false, 0⟩

/-- Concrete product payload with id `i`. -/
def prodP (i : String) : ProductPayload :=
  ⟨i, "published", "name", "desc", "url"⟩

theorem sync_item_failure_aborts_witness :
    ((∀ p ∈ [subP "s1"],
        (fun r : SubscriptionRecord => !(r.subscription_id == "s2"))
          (subscriptionDataOf p) = true) ∧
      ((fun r : SubscriptionRecord => !(r.subscription_id == "s2"))
          (subscriptionDataOf (subP "s2")) = false) ∧
      manualSyncHandler (fun r => !(r.subscription_id == "s2")) (fun _ => true)
          (fun _ => true) (.ok ([subP "s1"] ++ subP "s2" :: [subP "s3"]))
          (.ok []) (.ok []) ⟨[], [], [], []⟩ =
        { status := 400,
          store := { (⟨[], [], [], []⟩ : Store) with
                     subscriptions := [subP "s1"].foldl upsertSubscription [] },
          writes := 1 }) ∧
    ((∀ p ∈ [varP "v1"],
        (fun r : VariantRecord => !(r.variant_id == "v2")) (variantDataOf p) = true) ∧
      ((fun r : VariantRecord => !(r.variant_id == "v2")) (variantDataOf (varP "v2"))
        = false) ∧
      manualSyncHandler (fun _ => true) (fun r => !(r.variant_id == "v2"))
          (fun _ => true) (.ok [subP "s1"]) (.ok ([varP "v1"] ++ varP "v2" :: []))
          (.ok []) ⟨[], [], [], []⟩ =
        { status := 400,
          store := { (⟨[], [], [], []⟩ : Store) with
                     subscriptions := [subP "s1"].foldl upsertSubscription [],
                     variants := [varP "v1"].foldl upsertVariant [] },
          writes := 1 + 1 }) ∧
    ((fun r : ProductRecord => !(r.product_id == "p2")) (productDataOf (prodP "p2"))
        = false) ∧
    manualSyncHandler (fun _ => true) (fun _ => true)
        (fun r => !(r.product_id == "p2")) (.ok []) (.ok [])
        (.ok ([] ++ prodP "p2" :: [prodP "p3"])) ⟨[], [], [], []⟩ =
      { status := 400, store := ⟨[], [], [], []⟩, writes := 0 } :=
  ⟨⟨by decide, by decide,
    (sync_item_failure_aborts (fun r => !(r.subscription_id == "s2")) (fun _ => true)
        (fun _ => true) ⟨[], [], [], []⟩).1 [subP "s1"] [subP "s3"] (subP "s2")
      (.ok []) (.ok []) (by decide) (by decide)⟩,
   ⟨by decide, by decide,
    (sync_item_failure_aborts (fun _ => true) (fun r => !(r.variant_id == "v2"))
        (fun _ => true) ⟨[], [], [], []⟩).2.1 [subP "s1"] [varP "v1"] [] (varP "v2")
      (.ok []) (by decide) (by decide) (by decide)⟩,
   by decide,
   (sync_item_failure_aborts (fun _ => true) (fun _ => true)
       (fun r => !(r.product_id == "p2")) ⟨[], [], [], []⟩).2.2 [] [] []
     [prodP "p3"] (prodP "p2") (by decide) (by decide) (by decide) (by decide)⟩

/-- C7: a sync run in which all three vendor lists come back empty
performs zero record saves, leaves the store exactly as it was, and
returns the success response. -/
theorem sync_empty_lists_noop (saveSubOk : SubscriptionRecord → Bool)
    (saveVarOk : VariantRecord → Bool) (saveProdOk : ProductRecord → Bool)
    (store : Store) :
    manualSyncHandler saveSubOk saveVarOk saveProdOk (.ok []) (.ok []) (.ok []) store =
      { status := 200, store := store, writes := 0 } := by
  simp [manualSyncHandler, syncSubscriptionsLoop, syncVariantsLoop, syncProductsLoop]

/-! ### Customer-collection immutability -/

theorem lemonsqueezyHandler_customers (secret : String) (xSignature : Option String)
    (rawBody : String) (event : WebhookEvent) (store : Store) :
    (lemonsqueezyHandler secret xSignature rawBody event store).store.customers =
      store.customers := by
  simp only [lemonsqueezyHandler]
  repeat' split
  all_goals rfl

theorem createPortalLinkHandler_store (auth : Option UserRecord)
    (portalRes : VendorResult (Nat × String)) (store : Store) :
    (createPortalLinkHandler auth portalRes store).store = store := by
  simp only [createPortalLinkHandler]
  repeat' split
  all_goals rfl

theorem manualSyncHandler_customers (saveSubOk : SubscriptionRecord → Bool)
    (saveVarOk : VariantRecord → Bool) (saveProdOk : ProductRecord → Bool)
    (subsRes : VendorResult (List SubscriptionPayload))
    (variantsRes : VendorResult (List VariantPayload))
    (productsRes : VendorResult (List ProductPayload)) (store : Store) :
    (manualSyncHandler saveSubOk saveVarOk saveProdOk subsRes variantsRes productsRes
        store).store.customers = store.customers := by
  simp only [manualSyncHandler]
  repeat' split
  all_goals rfl

theorem createCheckoutSessionHandler_customers (auth : Option UserRecord)
    (customerRes : VendorResult CustomerCreateResp)
    (checkoutRes : VendorResult (Nat × String)) (store : Store) :
    (createCheckoutSessionHandler auth customerRes checkoutRes store).store.customers =
        store.customers ∨
      ∃ user cid, auth = some user ∧
        (store.customers.filter (fun r => r.user_id == user.id)).length = 0 ∧
        (createCheckoutSessionHandler auth customerRes checkoutRes store).store.customers =
          store.customers ++
            [{ lemonsqueezy_customer_id := cid, user_id := user.id }] := by
  cases auth with
  | none => left; rfl
  | some user =>
      rcases hcase : store.customers.filter (fun r => r.user_id == user.id) with _ | ⟨c, rest⟩
      · cases customerRes with
        | err e => left; simp [createCheckoutSessionHandler, hcase]
        | ok resp =>
            cases hd : resp.dataId with
            | none => left; simp [createCheckoutSessionHandler, hcase, hd]
            | some cid =>
                right
                refine ⟨user, cid, rfl, by rw [hcase]; rfl, ?_⟩
                cases checkoutRes <;>
                  simp [createCheckoutSessionHandler, hcase, hd, checkoutCallStep]
      · left
        cases checkoutRes <;>
          simp [createCheckoutSessionHandler, hcase, checkoutCallStep]

/-- C8: no handler modifies an existing customer record — the webhook
handler, the portal-link handler and the sync job leave the customer
collection untouched, and the checkout-session handler either leaves
it unchanged or, only when the caller has no customer record yet,
appends exactly one new record for that caller. -/
theorem customer_records_never_modified (secret : String)
    (xSignature : Option String) (rawBody : String) (event : WebhookEvent)
    (auth : Option UserRecord) (customerRes : VendorResult CustomerCreateResp)
    (checkoutRes : VendorResult (Nat × String))
    (portalRes : VendorResult (Nat × String))
    (saveSubOk : SubscriptionRecord → Bool) (saveVarOk : VariantRecord → Bool)
    (saveProdOk : ProductRecord → Bool)
    (subsRes : VendorResult (List SubscriptionPayload))
    (variantsRes : VendorResult (List VariantPayload))
    (productsRes : VendorResult (List ProductPayload)) (store : Store) :
    (lemonsqueezyHandler secret xSignature rawBody event store).store.customers =
        store.customers ∧
    (createPortalLinkHandler auth portalRes store).store = store ∧
    (manualSyncHandler saveSubOk saveVarOk saveProdOk subsRes variantsRes productsRes
        store).store.customers = store.customers ∧
    ((createCheckoutSessionHandler auth customerRes checkoutRes store).store.customers =
        store.customers ∨
      ∃ user cid, auth = some user ∧
        (store.customers.filter (fun r => r.user_id == user.id)).length = 0 ∧
        (createCheckoutSessionHandler auth customerRes checkoutRes store).store.customers =
          store.customers ++
            [{ lemonsqueezy_customer_id := cid, user_id := user.id }]) :=
  ⟨lemonsqueezyHandler_customers secret xSignature rawBody event store,
   createPortalLinkHandler_store auth portalRes store,
   manualSyncHandler_customers saveSubOk saveVarOk saveProdOk subsRes variantsRes
     productsRes store,
   createCheckoutSessionHandler_customers auth customerRes checkoutRes store⟩

end LemonSqueezy
